import Mathlib

/-!
Shallow embedding of the marksman reservation-sniper core
(`src/resy_client.rs`, `src/config.rs`) in Lean 4.

Modelling conventions:
* `serde_json::Value` is embedded as the inductive `Json`; numbers are
  integers (floating-point JSON numbers are not needed by the modelled
  code paths) and string escapes are not modelled.
* The external gateway (`ResyAPIGateway`, an HTTP transport) is an
  injectable environment `SnipeEnv` of functions returning
  `Except String Json` (`Box<dyn Error>` is carried as its message).
* Wall-clock time is modelled at second granularity: `SnipeEnv.now k`
  is the clock reading after `k` total seconds of sleeping, so clock
  adjustments between reads are arbitrary.  Timezone resolution
  (`Local.from_local_datetime(..).single()`) is the injectable
  `SnipeEnv.localSingle`, which may fail (`None`).
* Strings in slot data are treated as ASCII, so Rust byte indices
  coincide with character positions; a Rust byte-slice panic is
  modelled as the value `none` of an `Option` result.
* A computation that does not return (panic, or an unbounded wait loop
  cut by fuel) is `none` at the top level.
-/

/-- Model of `serde_json::Value` (numbers as integers, no escapes). -/
inductive Json where
  | null : Json
  | bool (b : Bool) : Json
  | num (n : Int) : Json
  | str (s : String) : Json
  | arr (elems : List Json) : Json
  | obj (fields : List (String × Json)) : Json

namespace Json

/-- `Value::get(key)`: `Some` field value for objects, `None` otherwise. -/
def get : Json → String → Option Json
  | obj fields, k => fields.lookup k
  | _, _ => none

/-- `Value::index` by key (`json["k"]`): missing keys yield `Null`. -/
def index (j : Json) (k : String) : Json :=
  (j.get k).getD null

/-- `Value::index` by array position (`json[i]`): out of range yields `Null`. -/
def indexNat (j : Json) (i : Nat) : Json :=
  match j with
  | arr elems => (elems.get? i).getD null
  | _ => null

/-- `Value::as_str`. -/
def asStr : Json → Option String
  | str s => some s
  | _ => none

/-- `Value::as_array`. -/
def asArray : Json → Option (List Json)
  | arr elems => some elems
  | _ => none

/-- `Value::as_object` (the object's field map, as an association list). -/
def asObj : Json → Option (List (String × Json))
  | obj fields => some fields
  | _ => none

/-- `Value::as_u64`: non-negative integers only. -/
def asU64 : Json → Option Nat
  | num n => if 0 ≤ n then some n.toNat else none
  | _ => none

/-- `Value::as_number` (model: the integer itself). -/
def asNumber : Json → Option Int
  | num n => some n
  | _ => none

mutual

/-- `Value`'s `Display`/`to_string()`: compact JSON (escapes not modelled). -/
def to_string : Json → String
  | null => "null"
  | bool true => "true"
  | bool false => "false"
  | num n => toString n
  | str s => "\"" ++ s ++ "\""
  | arr elems => "[" ++ listToString elems ++ "]"
  | obj fields => "\x7b" ++ fieldsToString fields ++ "\x7d"

/-- Comma-separated rendering of array elements. -/
def listToString : List Json → String
  | [] => ""
  | [j] => to_string j
  | j :: rest => to_string j ++ "," ++ listToString rest

/-- Comma-separated rendering of object fields. -/
def fieldsToString : List (String × Json) → String
  | [] => ""
  | [(k, v)] => "\"" ++ k ++ "\":" ++ to_string v
  | (k, v) :: rest => "\"" ++ k ++ "\":" ++ to_string v ++ "," ++ fieldsToString rest

end

end Json

/-- `ResyClientError` from `src/resy_client.rs`. -/
inductive ResyClientError where
  | NotFound (msg : String)
  | NetworkError (msg : String)
  | ApiError (msg : String)
  | InternalError (msg : String)
  | InvalidInput (msg : String)
  | ParseError (msg : String)
  | BookingError (msg : String)
  deriving DecidableEq, Repr

/-- `Config` from `src/config.rs` (the persisted session parameters). -/
structure Config where
  api_key : String
  auth_token : String
  venue_id : String
  venue_slug : String
  date : String
  party_size : Nat
  target_time : Option String
  payment_id : String
  deriving DecidableEq, Repr

/-- `Config::validate` (`src/config.rs` lines 75-81). -/
def Config.validate (c : Config) : Bool :=
  !c.api_key.isEmpty && !c.auth_token.isEmpty && !c.venue_id.isEmpty &&
    !c.date.isEmpty && decide (0 < c.party_size)

/-- `ResySlot` from `src/resy_client.rs` (normalized slot record). -/
structure ResySlot where
  id : String
  token : String
  slot_type : String
  start : String
  «end» : String
  min_size : Nat
  max_size : Nat
  quantity : Nat
  deriving DecidableEq, Repr

/-! ### chrono-style parsing helpers

`NaiveTime::parse_from_str(_, "%H%M")`, `"%H:%M"` and
`NaiveDate::parse_from_str(_, "%Y-%m-%d")`.  chrono's numeric items scan
greedily, at least one and at most the item's width of digits, and the
whole input must be consumed; the parsed fields must be in range. -/

/-- Scan at most `maxW` (and at least one) leading decimal digits. -/
def parseNum (cs : List Char) (maxW : Nat) : Option (Nat × List Char) :=
  let ds := (cs.takeWhile fun c => c.isDigit).take maxW
  if ds.isEmpty then none
  else some (ds.foldl (fun a c => a * 10 + (c.toNat - 48)) 0, cs.drop ds.length)

/-- Consume one expected literal character. -/
def expectChar (cs : List Char) (c : Char) : Option (List Char) :=
  match cs with
  | [] => none
  | x :: rest => if x = c then some rest else none

/-- `NaiveTime::parse_from_str(s, "%H%M")`, as minutes from midnight. -/
def parseHHMM (s : String) : Option Nat := do
  let (h, cs) ← parseNum s.toList 2
  let (m, cs) ← parseNum cs 2
  if cs.isEmpty ∧ h < 24 ∧ m < 60 then some (h * 60 + m) else none

/-- `NaiveTime::parse_from_str(s, "%H:%M")` on a list of characters,
as minutes from midnight. -/
def parseHMColon (cs : List Char) : Option Nat := do
  let (h, cs) ← parseNum cs 2
  let cs ← expectChar cs ':'
  let (m, cs) ← parseNum cs 2
  if cs.isEmpty ∧ h < 24 ∧ m < 60 then some (h * 60 + m) else none

/-- Leap-year rule used by chrono's date validation. -/
def isLeapYear (y : Nat) : Bool :=
  y % 4 == 0 && (y % 100 != 0 || y % 400 == 0)

/-- Days in a month, for chrono's date validation. -/
def daysInMonth (y m : Nat) : Nat :=
  if m = 2 then (if isLeapYear y then 29 else 28)
  else if m = 4 ∨ m = 6 ∨ m = 9 ∨ m = 11 then 30
  else 31

/-- `NaiveDate::parse_from_str(s, "%Y-%m-%d")` (years restricted to four
digits; chrono's extended years are not needed by the claims). -/
def parse_date (s : String) : Option (Nat × Nat × Nat) := do
  let (y, cs) ← parseNum s.toList 4
  let cs ← expectChar cs '-'
  let (m, cs) ← parseNum cs 2
  let cs ← expectChar cs '-'
  let (d, cs) ← parseNum cs 2
  if cs.isEmpty ∧ 1 ≤ m ∧ m ≤ 12 ∧ 1 ≤ d ∧ d ≤ daysInMonth y m then
    some (y, m, d)
  else none

/-! ### Slot normalization (`format_slots`, `src/resy_client.rs` 404-428) -/

/-- One raw entry of the gateway payload, normalized (the closure of
`format_slots`' `filter_map`); a `none` drops the malformed entry. -/
def formatSlot (slot : Json) : Option ResySlot := do
  let config ← (slot.index "config").asObj
  let date ← (slot.index "date").asObj
  let size ← (slot.index "size").asObj
  let id ← (config.lookup "id").bind Json.asNumber
  let token ← (config.lookup "token").bind Json.asStr
  let slot_type ← (config.lookup "type").bind Json.asStr
  let start ← (date.lookup "start").bind Json.asStr
  let «end» ← (date.lookup "end").bind Json.asStr
  let min_size ← (size.lookup "min").bind Json.asU64
  let max_size ← (size.lookup "max").bind Json.asU64
  let quantity ← (slot.get "quantity").bind Json.asU64
  some ⟨toString id, token, slot_type, start, «end», min_size, max_size, quantity⟩

/-- `format_slots`: extract `json["results"]["venues"][0]["slots"]`,
normalize each entry, silently dropping malformed ones; anything other
than an array there yields the empty list. -/
def format_slots (json : Json) : List ResySlot :=
  match ((((json.index "results").index "venues").indexNat 0).index "slots").asArray with
  | some slots => slots.filterMap formatSlot
  | none => []

/-! ### Ranking (`sort_slots_by_closest_time`, `src/resy_client.rs` 430-450) -/

/-- `&slot.start[11..16]` then `NaiveTime::parse_from_str(_, "%H:%M")`:
outer `none` models the byte-slice panic when `start` is shorter than 16
bytes; `some none` is a parse failure (the slot is dropped); ASCII is
assumed so byte indices are character positions. -/
def slotStartTime (slot : ResySlot) : Option (Option Nat) :=
  let cs := slot.start.toList
  if 16 ≤ cs.length then some (parseHMColon ((cs.drop 11).take 5)) else none

/-- The `filter_map` pass of `sort_slots_by_closest_time`, annotating each
slot with its parsed start time; `none` models the panic aborting the
whole traversal. -/
def annotateSlots : List ResySlot → Option (List (ResySlot × Option Nat))
  | [] => some []
  | s :: rest =>
    match slotStartTime s with
    | none => none
    | some t => (annotateSlots rest).map (fun l => (s, t) :: l)

/-- The `sort_by_key` key: `num_minutes().abs()` of the positive-ward
difference of the two times (both whole minutes from midnight). -/
def distKey (target t : Nat) : Nat :=
  if target ≤ t then t - target else target - t

/-- `sort_slots_by_closest_time`: a malformed target time returns the
empty list; slots whose start window fails to parse are dropped; the rest
are stably sorted by minute-distance to the target (`Vec::sort_by_key` is
a stable sort, embedded as `List.insertionSort` with `≤` on keys, which
is stable and agrees with every stable sort by the same key).  `none`
models the byte-slice panic. -/
def sort_slots_by_closest_time (slots : List ResySlot) (target_time : String) :
    Option (List ResySlot) :=
  match parseHHMM target_time with
  | none => some []
  | some target =>
    (annotateSlots slots).map (fun ann =>
      (((ann.filterMap (fun p => p.2.map (fun t => (p.1, t)))).insertionSort
        (fun a b => distKey target a.2 ≤ distKey target b.2)).map Prod.fst))

/-! ### The race phase (`run_sniper` lines 159-181 and `_sniper_task`) -/

/-- Injectable environment: clock, timezone resolution, and the three
gateway calls consumed by the sniper (`ResyAPIGateway` transport). -/
structure SnipeEnv where
  now : Nat → Int
  localSingle : Nat × Nat × Nat → Nat → Option Int
  find_reservation : String → String → Nat → Option String → Except String Json
  get_reservation_details : Nat → String → Nat → String → Except String Json
  book_reservation : String → String → Except String Json

/-- One observable gateway call of a race attempt: a quote
(`get_reservation_details`, `ok` iff a book token was extracted) or a
commit (`book_reservation`, `ok` iff the response carried `resy_token`,
i.e. the commit was confirmed successful). -/
inductive RaceEvent where
  | quote (config_id : String) (ok : Bool)
  | commit (book_token : String) (ok : Bool)
  deriving DecidableEq, Repr

/-- `_sniper_task` (`src/resy_client.rs` 184-225): quote then commit for
one slot, with the trace of gateway calls it performs. -/
def sniperTask (env : SnipeEnv) (cfg : Config) (config_id time_slot : String) :
    List RaceEvent × Except ResyClientError String :=
  match env.get_reservation_details 1 config_id cfg.party_size cfg.date with
  | .error _ =>
    ([.quote config_id false], .error (.BookingError "Error fetching book token"))
  | .ok json =>
    match json.get "book_token" with
    | none =>
      ([.quote config_id false], .error (.BookingError "Error fetching book token"))
    | some _ =>
      match ((json.index "book_token").index "value").asStr with
      | none =>
        ([.quote config_id false], .error (.BookingError "Book token not found"))
      | some book_token =>
        match env.book_reservation book_token cfg.payment_id with
        | .error _ =>
          ([.quote config_id true, .commit book_token false],
            .error (.BookingError "Error booking reservation"))
        | .ok json2 =>
          match json2.get "resy_token" with
          | some tok =>
            ([.quote config_id true, .commit book_token true], .ok tok.to_string)
          | none =>
            ([.quote config_id true, .commit book_token false],
              .error (.BookingError "Error booking reservation"))

/-- The sequential race loop of `run_sniper` (lines 172-181): try each
slot in order, return the first success, discard per-slot errors, and
report a fixed `BookingError` when every slot failed. -/
def sniperLoop (env : SnipeEnv) (cfg : Config) :
    List ResySlot → List RaceEvent × Except ResyClientError String
  | [] => ([], .error (.BookingError "Booking failure: all slots failed"))
  | slot :: rest =>
    match sniperTask env cfg slot.token slot.start with
    | (ev, .ok tok) => (ev, .ok tok)
    | (ev, .error _) =>
      (ev ++ (sniperLoop env cfg rest).1, (sniperLoop env cfg rest).2)

/-- Lines 163-166 of `run_sniper`: rank only when a preferred time is
stored, otherwise keep gateway order. -/
def rankSlots (slots : List ResySlot) : Option String → Option (List ResySlot)
  | some t => sort_slots_by_closest_time slots t
  | none => some slots

/-- Lines 159-181 of `run_sniper`: everything after the wait — config
validation, slot resolution (`_find_reservation_slots`, lines 371-378),
ranking, the empty-list check, and the race loop.  `none` models a
ranking panic. -/
def racePhase (env : SnipeEnv) (cfg : Config) :
    Option (List RaceEvent × Except ResyClientError String) :=
  if !cfg.validate then
    some ([], .error (.InvalidInput "reservation config is not complete"))
  else
    match env.find_reservation cfg.venue_id cfg.date cfg.party_size cfg.target_time with
    | .error e => some ([], .error (.ApiError ("Error fetching venue: " ++ e)))
    | .ok json =>
      (rankSlots (format_slots json) cfg.target_time).map (fun slots =>
        if slots.isEmpty then
          ([], .error (.NotFound "no reservation slots available"))
        else sniperLoop env cfg slots)

/-! ### The wait phase (`run_sniper` lines 121-156) -/

/-- The polling loop of lines 144-156: recompute the remaining time from
the clock, exit once it is no longer positive, otherwise sleep one second
inside the two-minute near-threshold and sixty seconds outside it.  The
state is the total number of seconds slept; fuel exhaustion is `none`. -/
def waitLoop (target : Int) (now : Nat → Int) : Nat → Nat → Option Nat
  | 0, _ => none
  | fuel + 1, elapsed =>
    let remaining := target - now elapsed
    if remaining ≤ 0 then some elapsed
    else waitLoop target now fuel (elapsed + (if remaining ≤ 120 then 1 else 60))

/-- Lines 137-142: the initial alignment sleep of
`remaining.num_seconds() % 60` seconds (Rust `%` truncates toward zero),
skipped when not positive.  Returns the seconds slept. -/
def initialSleep (target nowAtStart : Int) : Nat :=
  let s := (target - nowAtStart).tmod 60
  if 0 < s then s.toNat else 0

/-- Per-run observable record: total seconds slept, the elapsed-seconds
value at which the wait loop exited (if reached), and the gateway race
events. -/
structure RunLog where
  slept : Nat
  waitDone : Option Nat
  events : List RaceEvent
  deriving DecidableEq, Repr

/-- `run_sniper` (`src/resy_client.rs` 121-182): parse the snipe date and
time, resolve them to a local instant, reject instants not strictly later
than now plus one minute, sleep until the instant, then run the race
phase.  (The writes to `config.snipe_date`/`snipe_time` touch fields the
`Config` struct does not declare and are not modelled.)  `none` models a
non-returning run (fuel exhaustion in the wait loop, or a ranking
panic). -/
def run_sniper (env : SnipeEnv) (cfg : Config) (snipe_time snipe_date : String)
    (fuel : Nat) : Option (Except ResyClientError String × RunLog) :=
  match parse_date snipe_date with
  | none => some (.error (.InvalidInput "Invalid date format"), ⟨0, none, []⟩)
  | some d =>
    match parseHHMM snipe_time with
    | none => some (.error (.InvalidInput "Invalid time format"), ⟨0, none, []⟩)
    | some t =>
      match env.localSingle d t with
      | none =>
        some (.error (.InvalidInput "Could not convert to local datetime"), ⟨0, none, []⟩)
      | some datetime =>
        if datetime ≤ env.now 0 + 60 then
          some (.error (.InvalidInput "Snipe date/time is in the past"), ⟨0, none, []⟩)
        else
          match waitLoop datetime env.now fuel (initialSleep datetime (env.now 0)) with
          | none => none
          | some e =>
            (racePhase env cfg).map (fun p => (p.2, ⟨e, some e, p.1⟩))

/-- Number of commits confirmed successful in a trace. -/
def commitSuccessCount (evs : List RaceEvent) : Nat :=
  evs.countP (fun e => match e with | .commit _ true => true | _ => false)

/-! ### Concrete test fixtures (used by witnesses and counterexamples) -/

/-- Test clock: reads advance exactly with the seconds slept. -/
def tickClock : Nat → Int := fun k => (k : Int)

/-- Gateway stub whose every call fails with a network error. -/
def envDeadGateway (targetInstant : Int) : SnipeEnv :=
  ⟨tickClock, fun _ _ => some targetInstant,
    fun _ _ _ _ => .error "net", fun _ _ _ _ => .error "net",
    fun _ _ => .error "net"⟩

/-- A config with an empty `api_key` (fails `Config::validate`). -/
def cfgIncomplete : Config :=
  ⟨"", "tok", "42", "", "2024-05-06", 2, none, "1"⟩

/-- A complete config (passes `Config::validate`), no preferred time. -/
def cfgComplete : Config :=
  ⟨"key", "tok", "42", "slug", "2024-05-06", 2, none, "1"⟩

/-! ### Fixtures for the race loop -/

/-- A quote payload carrying a book token. -/
def jsonDetailsOk : Json := Json.obj [("book_token", Json.obj [("value", Json.str "BT1")])]

/-- A commit payload carrying the confirmation token. -/
def jsonBookOk : Json := Json.obj [("resy_token", Json.str "RT")]

/-- Candidate whose quote fails at the gateway. -/
def slotF : ResySlot :=
  ⟨"1", "tokF", "dining", "2024-05-06 18:00:00", "2024-05-06 19:00:00", 2, 2, 1⟩

/-- Candidate whose quote and commit both succeed. -/
def slotS : ResySlot :=
  ⟨"2", "tokS", "dining", "2024-05-06 19:15:00", "2024-05-06 20:15:00", 2, 2, 1⟩

/-- Gateway stub: quoting succeeds only for `slotS`'s token, commits
always succeed. -/
def envRace : SnipeEnv :=
  ⟨tickClock, fun _ _ => some 120, fun _ _ _ _ => .error "find",
    fun _ cid _ _ => if cid = "tokS" then .ok jsonDetailsOk else .error "api",
    fun _ _ => .ok jsonBookOk⟩

/-! ### C2: all candidates fail (corrected) -/

/-- Gateway stub: quotes succeed, commits fail. -/
def envQuoteOkCommitFail : SnipeEnv :=
  ⟨tickClock, fun _ _ => some 120, fun _ _ _ _ => .error "find",
    fun _ _ _ _ => .ok jsonDetailsOk, fun _ _ => .error "book"⟩

/-- Gateway payload with an empty slots array. -/
def jsonEmptySlots : Json :=
  Json.obj [("results", Json.obj [("venues",
    Json.arr [Json.obj [("slots", Json.arr [])]])])]

/-- Gateway stub returning zero raw slot entries. -/
def envEmptyFind : SnipeEnv :=
  ⟨tickClock, fun _ _ => some 120, fun _ _ _ _ => .ok jsonEmptySlots,
    fun _ _ _ _ => .error "q", fun _ _ => .error "b"⟩

/-- One well-formed raw slot entry. -/
def jsonSlotEntry : Json :=
  Json.obj [
    ("config", Json.obj [("id", Json.num 11), ("token", Json.str "tokF"),
      ("type", Json.str "dining")]),
    ("date", Json.obj [("start", Json.str "2024-05-06 18:00:00"),
      ("end", Json.str "2024-05-06 19:00:00")]),
    ("size", Json.obj [("min", Json.num 2), ("max", Json.num 2)]),
    ("quantity", Json.num 1)]

/-- Gateway payload with exactly one well-formed slot entry. -/
def jsonOneSlot : Json :=
  Json.obj [("results", Json.obj [("venues",
    Json.arr [Json.obj [("slots", Json.arr [jsonSlotEntry])]])])]

/-- Gateway stub returning one slot entry. -/
def envOneSlotFind : SnipeEnv :=
  ⟨tickClock, fun _ _ => some 120, fun _ _ _ _ => .ok jsonOneSlot,
    fun _ _ _ _ => .error "q", fun _ _ => .error "b"⟩

/-- A complete config whose stored preferred time is not HHMM. -/
def cfgBadTarget : Config :=
  ⟨"key", "tok", "42", "slug", "2024-05-06", 2, some "abcd", "1"⟩

/-! ### C6: ranking by minute-distance, stable, gateway order for ties -/

/-- The parsed start time of a slot, defaulting to 0 (the default is
never used under the well-formedness hypothesis of the ranking
theorem). -/
def startTimeD (s : ResySlot) : Nat :=
  match slotStartTime s with
  | some (some m) => m
  | _ => 0

/-- The ranking key of a slot: minute-distance of its start time to the
preferred time. -/
def slotKey (target : Nat) (s : ResySlot) : Nat :=
  distKey target (startTimeD s)

/-- Ranking example slot starting 18:00. -/
def exSlot1800 : ResySlot :=
  ⟨"1", "tok1800", "dining", "2024-05-06 18:00:00", "2024-05-06 19:00:00", 2, 2, 1⟩

/-- Ranking example slot starting 18:30. -/
def exSlot1830 : ResySlot :=
  ⟨"2", "tok1830", "dining", "2024-05-06 18:30:00", "2024-05-06 19:30:00", 2, 2, 1⟩

/-- Ranking example slot starting 19:15. -/
def exSlot1915 : ResySlot :=
  ⟨"3", "tok1915", "dining", "2024-05-06 19:15:00", "2024-05-06 20:15:00", 2, 2, 1⟩

/-! ### Helper lemmas: the wait phase -/

/-- The wait loop only exits when the clock it just re-read has reached
the target. -/
theorem waitLoop_exit_ge (target : Int) (now : Nat → Int) :
    ∀ (fuel elapsed e : Nat), waitLoop target now fuel elapsed = some e →
      target ≤ now e := by
  intro fuel
  induction fuel with
  | zero => intro elapsed e h; simp [waitLoop] at h
  | succ n ih =>
    intro elapsed e h
    rw [waitLoop] at h
    by_cases hle : target - now elapsed ≤ 0
    · simp only [hle, if_true] at h
      cases h
      omega
    · simp only [hle, if_false] at h
      exact ih _ _ h

/-- Unfolding of `run_sniper` past its validation, for a target instant
that passes the guard window. -/
theorem run_sniper_eq_of_future (env : SnipeEnv) (cfg : Config)
    (st sd : String) (fuel : Nat) (d : Nat × Nat × Nat) (t : Nat) (tgt : Int)
    (hd : parse_date sd = some d) (ht : parseHHMM st = some t)
    (hl : env.localSingle d t = some tgt) (hfut : env.now 0 + 60 < tgt) :
    run_sniper env cfg st sd fuel =
      match waitLoop tgt env.now fuel (initialSleep tgt (env.now 0)) with
      | none => none
      | some e => (racePhase env cfg).map (fun p => (p.2, ⟨e, some e, p.1⟩)) := by
  have hn : ¬ tgt ≤ env.now 0 + 60 := by omega
  simp only [run_sniper, hd, ht, hl, hn, if_false]

/-! ### C4: the wait loop exits only at the deadline -/

/-- C4: the wait phase of `run_sniper` proceeds past waiting only once
the re-read wall clock reports a time `≥` the target instant: the
remaining time is recomputed from the clock on every iteration of
`waitLoop` and the loop never exits while it is positive; consequently
any `run_sniper` run whose wait phase completed (at `slept = e`) did so
with `now e ≥ target`. -/
theorem run_sniper_wait_exits_at_deadline :
    (∀ (target : Int) (now : Nat → Int) (fuel elapsed e : Nat),
        waitLoop target now fuel elapsed = some e → target ≤ now e) ∧
    (∀ (env : SnipeEnv) (cfg : Config) (st sd : String) (fuel : Nat)
        (d : Nat × Nat × Nat) (t : Nat) (tgt : Int)
        (r : Except ResyClientError String) (log : RunLog) (e : Nat),
        parse_date sd = some d → parseHHMM st = some t →
        env.localSingle d t = some tgt →
        run_sniper env cfg st sd fuel = some (r, log) →
        log.waitDone = some e → tgt ≤ env.now e) := by
  constructor
  · exact waitLoop_exit_ge
  · intro env cfg st sd fuel d t tgt r log e hd ht hl hrun hdone
    by_cases hfut : env.now 0 + 60 < tgt
    · rw [run_sniper_eq_of_future env cfg st sd fuel d t tgt hd ht hl hfut] at hrun
      cases hw : waitLoop tgt env.now fuel (initialSleep tgt (env.now 0)) with
      | none => rw [hw] at hrun; simp at hrun
      | some e' =>
        rw [hw] at hrun
        cases hp : racePhase env cfg with
        | none => rw [hp] at hrun; simp at hrun
        | some p =>
          rw [hp] at hrun
          simp only [Option.map_some', Option.some.injEq, Prod.mk.injEq] at hrun
          obtain ⟨-, hlog⟩ := hrun
          subst hlog
          simp only [RunLog.waitDone, Option.some.injEq] at hdone
          subst hdone
          exact waitLoop_exit_ge _ _ _ _ _ hw
    · have hle : tgt ≤ env.now 0 + 60 := by omega
      simp only [run_sniper, hd, ht, hl, hle, if_true,
        Option.some.injEq, Prod.mk.injEq] at hrun
      obtain ⟨-, hlog⟩ := hrun
      subst hlog
      simp at hdone

/-- C4 witness: with a tick clock and target instant 181, the run exits
its wait at `slept = 181`, where the clock reads the target. -/
theorem run_sniper_wait_exits_at_deadline_witness :
    (181 : Int) ≤ (envDeadGateway 181).now 181 :=
  run_sniper_wait_exits_at_deadline.2 (envDeadGateway 181) cfgIncomplete
    "0003" "2024-05-06" 130 (2024, 5, 6) 3 181
    (.error (.InvalidInput "reservation config is not complete"))
    ⟨181, some 181, []⟩ 181 rfl rfl rfl (by rfl) rfl

/-! ### C5: guard-window validation is synchronous -/

/-- C5: a target instant not strictly later than now plus the 60-second
guard window makes `run_sniper` fail with `InvalidInput` synchronously:
no sleeping (`slept = 0`), the wait loop never entered. -/
theorem run_sniper_guard_window_rejects :
    ∀ (env : SnipeEnv) (cfg : Config) (st sd : String) (fuel : Nat)
      (d : Nat × Nat × Nat) (t : Nat) (tgt : Int),
      parse_date sd = some d → parseHHMM st = some t →
      env.localSingle d t = some tgt →
      tgt ≤ env.now 0 + 60 →
      run_sniper env cfg st sd fuel =
        some (.error (.InvalidInput "Snipe date/time is in the past"),
          ⟨0, none, []⟩) := by
  intro env cfg st sd fuel d t tgt hd ht hl hle
  simp only [run_sniper, hd, ht, hl, hle, if_true]

/-- C5 witness: target instant 10 seconds away (tick clock at 0), below
the 60-second window: synchronous `InvalidInput`, zero seconds slept. -/
theorem run_sniper_guard_window_rejects_witness :
    run_sniper (envDeadGateway 10) cfgComplete "0003" "2024-05-06" 130 =
      some (.error (.InvalidInput "Snipe date/time is in the past"),
        ⟨0, none, []⟩) :=
  run_sniper_guard_window_rejects (envDeadGateway 10) cfgComplete
    "0003" "2024-05-06" 130 (2024, 5, 6) 3 10 rfl rfl rfl (by decide)

/-! ### C3: incomplete session parameters (corrected) -/

set_option maxRecDepth 10000 in
/-- C3 counterexample: with an incomplete config (empty `api_key`), a
valid date/time and a target instant 120 seconds away, `run_sniper` does
return `InvalidInput` — but only after sleeping 120 seconds: the config
check of line 159 runs after the wait, so sleep does occur before the
error, refuting "no sleep is performed before that error is returned". -/
theorem run_sniper_sleeps_before_config_error_cex :
    run_sniper (envDeadGateway 120) cfgIncomplete "0002" "2024-05-06" 130 =
      some (.error (.InvalidInput "reservation config is not complete"),
        ⟨120, some 120, []⟩) ∧ (120 : Nat) ≠ 0 :=
  ⟨by rfl, by decide⟩

/-- C3 amended: incomplete session parameters do make `run_sniper` fail
with `InvalidInput "reservation config is not complete"` and no gateway
call is made, but the failure is produced only after the wait phase
completes — the seconds slept equal the wait-loop exit value `e`, not
zero. -/
theorem run_sniper_config_error_after_wait :
    ∀ (env : SnipeEnv) (cfg : Config) (st sd : String) (fuel : Nat)
      (d : Nat × Nat × Nat) (t : Nat) (tgt : Int) (e : Nat),
      parse_date sd = some d → parseHHMM st = some t →
      env.localSingle d t = some tgt → env.now 0 + 60 < tgt →
      waitLoop tgt env.now fuel (initialSleep tgt (env.now 0)) = some e →
      cfg.validate = false →
      run_sniper env cfg st sd fuel =
        some (.error (.InvalidInput "reservation config is not complete"),
          ⟨e, some e, []⟩) := by
  intro env cfg st sd fuel d t tgt e hd ht hl hfut hw hv
  rw [run_sniper_eq_of_future env cfg st sd fuel d t tgt hd ht hl hfut, hw]
  simp only [racePhase, hv, Bool.not_false, if_true, Option.map_some']

set_option maxRecDepth 10000 in
/-- C3 witness for the amended statement, at the counterexample input. -/
theorem run_sniper_config_error_after_wait_witness :
    run_sniper (envDeadGateway 120) cfgIncomplete "0002" "2024-05-06" 130 =
      some (.error (.InvalidInput "reservation config is not complete"),
        ⟨120, some 120, []⟩) :=
  run_sniper_config_error_after_wait (envDeadGateway 120) cfgIncomplete
    "0002" "2024-05-06" 130 (2024, 5, 6) 2 120 120 rfl rfl rfl (by decide)
    (by rfl) rfl

/-! ### C1: first success wins, commit exclusivity -/

/-- A single attempt confirms exactly one commit when it succeeds and
none when it fails. -/
theorem commitSuccessCount_sniperTask (env : SnipeEnv) (cfg : Config) (a b : String) :
    commitSuccessCount (sniperTask env cfg a b).1 =
      if (sniperTask env cfg a b).2.isOk then 1 else 0 := by
  rcases hq : env.get_reservation_details 1 a cfg.party_size cfg.date with e | json
  · simp [sniperTask, hq, commitSuccessCount, Except.isOk, Except.toBool]
  · rcases hbt : json.get "book_token" with _ | v
    · simp [sniperTask, hq, hbt, commitSuccessCount, Except.isOk, Except.toBool]
    · rcases hv : ((json.index "book_token").index "value").asStr with _ | bt
      · simp [sniperTask, hq, hbt, hv, commitSuccessCount, Except.isOk, Except.toBool]
      · rcases hb : env.book_reservation bt cfg.payment_id with e2 | json2
        · simp [sniperTask, hq, hbt, hv, hb, commitSuccessCount, Except.isOk,
            Except.toBool]
        · rcases hrt : json2.get "resy_token" with _ | tk
          · simp [sniperTask, hq, hbt, hv, hb, hrt, commitSuccessCount,
              Except.isOk, Except.toBool]
          · simp [sniperTask, hq, hbt, hv, hb, hrt, commitSuccessCount,
              Except.isOk, Except.toBool]

/-- C1: over any candidate list, the race loop confirms at most one
commit; when it returns a confirmation token, that token is the one of
the first slot whose quote-then-commit attempt succeeded, every earlier
slot's attempt failed, and the trace of gateway calls stops with the
winning attempt — no further quote or commit attempts follow the
success. -/
theorem sniperLoop_first_success_exclusive :
    ∀ (env : SnipeEnv) (cfg : Config) (slots : List ResySlot),
      commitSuccessCount (sniperLoop env cfg slots).1 ≤ 1 ∧
      ∀ tok, (sniperLoop env cfg slots).2 = .ok tok →
        ∃ pre s post, slots = pre ++ s :: post ∧
          (∀ x ∈ pre, (sniperTask env cfg x.token x.start).2.isOk = false) ∧
          (sniperTask env cfg s.token s.start).2 = .ok tok ∧
          (sniperLoop env cfg slots).1 =
            (pre.map (fun x => (sniperTask env cfg x.token x.start).1)).flatten ++
              (sniperTask env cfg s.token s.start).1 := by
  intro env cfg slots
  induction slots with
  | nil =>
    refine ⟨by simp [sniperLoop, commitSuccessCount], ?_⟩
    intro tok h
    simp [sniperLoop] at h
  | cons s rest ih =>
    have hcnt := commitSuccessCount_sniperTask env cfg s.token s.start
    rcases hT : sniperTask env cfg s.token s.start with ⟨ev, r⟩
    rw [hT] at hcnt
    cases r with
    | ok tok0 =>
      have hloop : sniperLoop env cfg (s :: rest) = (ev, .ok tok0) := by
        simp [sniperLoop, hT]
      constructor
      · rw [hloop]
        dsimp only
        simp [Except.isOk, Except.toBool] at hcnt
        omega
      · intro tok h
        rw [hloop] at h
        simp only [Except.ok.injEq] at h
        subst h
        refine ⟨[], s, rest, rfl, by simp, ?_, ?_⟩
        · rw [hT]
        · rw [hloop, hT]
          simp
    | error e =>
      have hloop : sniperLoop env cfg (s :: rest) =
          (ev ++ (sniperLoop env cfg rest).1, (sniperLoop env cfg rest).2) := by
        simp [sniperLoop, hT]
      simp [Except.isOk, Except.toBool] at hcnt
      constructor
      · rw [hloop]
        dsimp only
        simp only [commitSuccessCount] at *
        rw [List.countP_append]
        have := ih.1
        omega
      · intro tok h
        rw [hloop] at h
        obtain ⟨pre, s', post, heq, hpre, hwin, htr⟩ := ih.2 tok h
        refine ⟨s :: pre, s', post, by rw [heq]; rfl, ?_, hwin, ?_⟩
        · intro x hx
          rcases List.mem_cons.mp hx with hx | hx
          · subst hx
            rw [hT]
            rfl
          · exact hpre x hx
        · rw [hloop, htr, List.map_cons, List.flatten_cons, hT,
            List.append_assoc]

/-- C1 witness: first candidate's quote fails, second succeeds; the loop
returns the second slot's confirmation token (the JSON rendering of the
`resy_token` value) and its trace stops there. -/
theorem sniperLoop_first_success_exclusive_witness :
    commitSuccessCount (sniperLoop envRace cfgComplete [slotF, slotS]).1 ≤ 1 ∧
    ∃ pre s post, [slotF, slotS] = pre ++ s :: post ∧
      (∀ x ∈ pre, (sniperTask envRace cfgComplete x.token x.start).2.isOk = false) ∧
      (sniperTask envRace cfgComplete s.token s.start).2 = .ok "\"RT\"" ∧
      (sniperLoop envRace cfgComplete [slotF, slotS]).1 =
        (pre.map (fun x => (sniperTask envRace cfgComplete x.token x.start).1)).flatten ++
          (sniperTask envRace cfgComplete s.token s.start).1 :=
  ⟨(sniperLoop_first_success_exclusive envRace cfgComplete [slotF, slotS]).1,
    (sniperLoop_first_success_exclusive envRace cfgComplete [slotF, slotS]).2
      "\"RT\"" (by rfl)⟩

/-! ### C7: a per-slot failure is non-fatal -/

/-- C7: when the head candidate's attempt fails, the race over the whole
list is the race over the remaining candidates (its events appended after
the failed attempt's), so every remaining candidate is still attempted in
order and a later success still wins the session. -/
theorem sniperLoop_failure_nonfatal :
    ∀ (env : SnipeEnv) (cfg : Config) (s : ResySlot) (rest : List ResySlot),
      (sniperTask env cfg s.token s.start).2.isOk = false →
      sniperLoop env cfg (s :: rest) =
        ((sniperTask env cfg s.token s.start).1 ++ (sniperLoop env cfg rest).1,
          (sniperLoop env cfg rest).2) ∧
      ∀ tok, (sniperLoop env cfg rest).2 = .ok tok →
        (sniperLoop env cfg (s :: rest)).2 = .ok tok := by
  intro env cfg s rest hfail
  rcases hT : sniperTask env cfg s.token s.start with ⟨ev, r⟩
  rw [hT] at hfail
  cases r with
  | ok t => simp [Except.isOk, Except.toBool] at hfail
  | error e =>
    have hloop : sniperLoop env cfg (s :: rest) =
        (ev ++ (sniperLoop env cfg rest).1, (sniperLoop env cfg rest).2) := by
      simp [sniperLoop, hT]
    refine ⟨?_, ?_⟩
    · simp only [hloop, hT]
    · intro tok h
      rw [hloop]
      exact h

/-- C7 witness: `slotF`'s quote fails, yet `slotS` is attempted and the
race succeeds. -/
theorem sniperLoop_failure_nonfatal_witness :
    sniperLoop envRace cfgComplete [slotF, slotS] =
      ((sniperTask envRace cfgComplete slotF.token slotF.start).1 ++
          (sniperLoop envRace cfgComplete [slotS]).1,
        (sniperLoop envRace cfgComplete [slotS]).2) ∧
    (sniperLoop envRace cfgComplete [slotF, slotS]).2 = .ok "\"RT\"" :=
  ⟨(sniperLoop_failure_nonfatal envRace cfgComplete slotF [slotS] (by rfl)).1,
    (sniperLoop_failure_nonfatal envRace cfgComplete slotF [slotS] (by rfl)).2
      "\"RT\"" (by rfl)⟩

/-- C2 counterexample: two sessions whose single slot fails for two
different reasons ("Error fetching book token" vs "Error booking
reservation") both end in the same fixed `BookingError "Booking failure:
all slots failed"`; the message does not even contain the per-slot
reason, so the per-slot failure reasons are discarded, not aggregated
into the returned failure. -/
theorem sniperLoop_discards_slot_reasons_cex :
    (sniperTask (envDeadGateway 120) cfgComplete slotF.token slotF.start).2 =
      .error (.BookingError "Error fetching book token") ∧
    (sniperTask envQuoteOkCommitFail cfgComplete slotF.token slotF.start).2 =
      .error (.BookingError "Error booking reservation") ∧
    (sniperLoop (envDeadGateway 120) cfgComplete [slotF]).2 =
      .error (.BookingError "Booking failure: all slots failed") ∧
    (sniperLoop envQuoteOkCommitFail cfgComplete [slotF]).2 =
      .error (.BookingError "Booking failure: all slots failed") ∧
    ¬ ("Error fetching book token".toList <:+:
        "Booking failure: all slots failed".toList) :=
  ⟨rfl, rfl, rfl, rfl, by decide⟩

/-- C2 amended: when every candidate slot's attempt fails, the session
terminates with the constant `BookingError "Booking failure: all slots
failed"`; the individual per-slot failure reasons are discarded (line 177
drops each `Err(e)`), not aggregated into the returned failure. -/
theorem sniperLoop_all_fail_fixed_message :
    ∀ (env : SnipeEnv) (cfg : Config) (slots : List ResySlot),
      (∀ s ∈ slots, (sniperTask env cfg s.token s.start).2.isOk = false) →
      (sniperLoop env cfg slots).2 =
        .error (.BookingError "Booking failure: all slots failed") := by
  intro env cfg slots
  induction slots with
  | nil => intro h; rfl
  | cons s rest ih =>
    intro h
    have hs := h s (List.mem_cons_self s rest)
    rcases hT : sniperTask env cfg s.token s.start with ⟨ev, r⟩
    rw [hT] at hs
    cases r with
    | ok t => simp [Except.isOk, Except.toBool] at hs
    | error e =>
      have hloop : sniperLoop env cfg (s :: rest) =
          (ev ++ (sniperLoop env cfg rest).1, (sniperLoop env cfg rest).2) := by
        simp [sniperLoop, hT]
      rw [hloop]
      exact ih (fun x hx => h x (List.mem_cons_of_mem s hx))

/-- C2 witness for the amended statement: one failing slot, fixed
message. -/
theorem sniperLoop_all_fail_fixed_message_witness :
    (sniperLoop (envDeadGateway 120) cfgComplete [slotF]).2 =
      .error (.BookingError "Booking failure: all slots failed") :=
  sniperLoop_all_fail_fixed_message (envDeadGateway 120) cfgComplete [slotF]
    (by intro s hs; rcases List.mem_singleton.mp hs with rfl; rfl)

/-! ### C8: empty resolution is a terminal NotFound -/

/-- Ranking an empty slot list always yields an empty list. -/
theorem rankSlots_nil (tt : Option String) : rankSlots [] tt = some [] := by
  cases tt with
  | none => rfl
  | some t =>
    simp only [rankSlots, sort_slots_by_closest_time]
    cases parseHHMM t <;> simp [annotateSlots]

/-- C8: with a valid config, if resolution yields no slots, `racePhase`
terminates with `NotFound` and performs no quote or commit call (empty
event trace); and a gateway payload whose slots array is empty — or
absent — formats to the empty list, not an error. -/
theorem racePhase_empty_resolution_notfound :
    (∀ (env : SnipeEnv) (cfg : Config) (j : Json),
        cfg.validate = true →
        env.find_reservation cfg.venue_id cfg.date cfg.party_size cfg.target_time =
          .ok j →
        format_slots j = [] →
        racePhase env cfg =
          some ([], .error (.NotFound "no reservation slots available"))) ∧
    (∀ j : Json,
        ((((j.index "results").index "venues").indexNat 0).index "slots").asArray =
          some [] → format_slots j = []) ∧
    (∀ j : Json,
        ((((j.index "results").index "venues").indexNat 0).index "slots").asArray =
          none → format_slots j = []) := by
  refine ⟨?_, ?_, ?_⟩
  · intro env cfg j hv hf hslots
    simp [racePhase, hv, hf, hslots, rankSlots_nil]
  · intro j h
    simp [format_slots, h]
  · intro j h
    simp [format_slots, h]

/-- C8 witness: zero raw entries resolve to the empty list and the
session is a `NotFound` with no race events. -/
theorem racePhase_empty_resolution_notfound_witness :
    racePhase envEmptyFind cfgComplete =
      some ([], .error (.NotFound "no reservation slots available")) :=
  racePhase_empty_resolution_notfound.1 envEmptyFind cfgComplete jsonEmptySlots
    rfl rfl rfl

/-! ### C10: a malformed stored preferred time discards all slots -/

/-- C10: if the stored preferred time fails to parse as HHMM, the
ranking returns the empty list — discarding every resolved slot — so a
session whose resolution succeeded with any slot list reports `NotFound`
even though slots were available. -/
theorem malformed_target_time_discards_slots :
    ∀ (env : SnipeEnv) (cfg : Config) (slots : List ResySlot) (j : Json)
      (tt : String),
      cfg.target_time = some tt → parseHHMM tt = none →
      cfg.validate = true →
      env.find_reservation cfg.venue_id cfg.date cfg.party_size cfg.target_time =
        .ok j →
      format_slots j = slots →
      sort_slots_by_closest_time slots tt = some [] ∧
      racePhase env cfg =
        some ([], .error (.NotFound "no reservation slots available")) := by
  intro env cfg slots j tt htt hparse hv hf hfmt
  have hsort : sort_slots_by_closest_time slots tt = some [] := by
    simp [sort_slots_by_closest_time, hparse]
  refine ⟨hsort, ?_⟩
  rw [htt] at hf
  simp [racePhase, hv, htt, hf, hfmt, rankSlots, hsort]

/-- C10 witness: one slot resolves, yet the malformed stored "abcd"
preferred time empties the list and the session reports `NotFound`. -/
theorem malformed_target_time_discards_slots_witness :
    sort_slots_by_closest_time
      [⟨"11", "tokF", "dining", "2024-05-06 18:00:00",
        "2024-05-06 19:00:00", 2, 2, 1⟩] "abcd" = some [] ∧
    racePhase envOneSlotFind cfgBadTarget =
      some ([], .error (.NotFound "no reservation slots available")) :=
  malformed_target_time_discards_slots envOneSlotFind cfgBadTarget
    [⟨"11", "tokF", "dining", "2024-05-06 18:00:00",
      "2024-05-06 19:00:00", 2, 2, 1⟩] jsonOneSlot "abcd" rfl rfl rfl rfl rfl

/-! ### C9: the ranking panics on short start strings -/

/-- Annotation succeeds whenever every start string reaches index 16. -/
theorem annotateSlots_isSome :
    ∀ (slots : List ResySlot), (∀ s ∈ slots, 16 ≤ s.start.length) →
      (annotateSlots slots).isSome = true := by
  intro slots
  induction slots with
  | nil => intro _; rfl
  | cons s rest ih =>
    intro h
    have h16 : 16 ≤ s.start.toList.length :=
      h s (List.mem_cons_self s rest)
    simp only [annotateSlots, slotStartTime]
    rw [if_pos h16]
    simp only [Option.isSome_map']
    exact ih (fun x hx => h x (List.mem_cons_of_mem s hx))

/-- C9: the ranking is total only when every slot's start string is at
least 16 bytes long: under that precondition it never panics, and for a
parseable preferred time together with a slot whose start string is
shorter than 16 bytes the byte slice `start[11..16]` is out of bounds and
the function panics (`none`) instead of dropping the slot. -/
theorem sort_slots_short_start_panics :
    (∀ (slots : List ResySlot) (t : String),
        (∀ s ∈ slots, 16 ≤ s.start.length) →
        (sort_slots_by_closest_time slots t).isSome = true) ∧
    sort_slots_by_closest_time
      [⟨"1", "tokF", "dining", "18:00", "", 2, 2, 1⟩] "1900" = none := by
  constructor
  · intro slots t h
    unfold sort_slots_by_closest_time
    cases hp : parseHHMM t with
    | none => rfl
    | some tt =>
      simp only [Option.isSome_map']
      exact annotateSlots_isSome slots h
  · rfl

/-- C9 witness: a list of well-formed start strings never panics. -/
theorem sort_slots_short_start_panics_witness :
    (sort_slots_by_closest_time [slotF, slotS] "1900").isSome = true :=
  sort_slots_short_start_panics.1 [slotF, slotS] "1900" (by decide)

/-- Inserting an element of key class `k` places it before every member
of its class: the skipped prefix has strictly smaller keys. -/
theorem filter_orderedInsert_key_eq {α : Type} (key : α → Nat) (k : Nat)
    (x : α) (l : List α) (hx : key x = k) :
    ((l.orderedInsert (fun a b => key a ≤ key b) x).filter
        (fun a => key a == k)) =
      x :: l.filter (fun a => key a == k) := by
  induction l with
  | nil => simp [List.orderedInsert, List.filter_cons, hx]
  | cons b t ih =>
    by_cases hle : key x ≤ key b
    · rw [List.orderedInsert, if_pos hle]
      simp [List.filter_cons, hx]
    · have hb : (key b == k) = false := by
        subst hx
        simp only [beq_eq_false_iff_ne, ne_eq]
        omega
      simp only [List.orderedInsert, hle, if_false, List.filter_cons, hb]
      rw [ih]
      simp [List.filter_cons, hb]

/-- Inserting an element outside key class `k` leaves the class's filter
unchanged. -/
theorem filter_orderedInsert_key_ne {α : Type} (key : α → Nat) (k : Nat)
    (x : α) (l : List α) (hx : key x ≠ k) :
    ((l.orderedInsert (fun a b => key a ≤ key b) x).filter
        (fun a => key a == k)) =
      l.filter (fun a => key a == k) := by
  have hqx : (key x == k) = false := by simp [hx]
  induction l with
  | nil => simp [List.orderedInsert, List.filter_cons, hqx]
  | cons b t ih =>
    by_cases hle : key x ≤ key b
    · simp [List.orderedInsert, hle, List.filter_cons, hqx]
    · simp only [List.orderedInsert, hle, if_false, List.filter_cons]
      rw [ih]

/-- Stability of insertion sort by key: each key class keeps its original
order (its filter is unchanged by sorting). -/
theorem filter_insertionSort_key {α : Type} (key : α → Nat) (k : Nat)
    (l : List α) :
    ((l.insertionSort (fun a b => key a ≤ key b)).filter
        (fun a => key a == k)) =
      l.filter (fun a => key a == k) := by
  induction l with
  | nil => rfl
  | cons x t ih =>
    by_cases hx : key x = k
    · rw [List.insertionSort, filter_orderedInsert_key_eq key k x _ hx, ih,
        List.filter_cons]
      simp [hx]
    · rw [List.insertionSort, filter_orderedInsert_key_ne key k x _ hx, ih,
        List.filter_cons]
      simp [hx]

/-- Under the well-formedness hypothesis, annotation is the paired map. -/
theorem annotateSlots_eq_map :
    ∀ (slots : List ResySlot),
      (∀ s ∈ slots, slotStartTime s = some (some (startTimeD s))) →
      annotateSlots slots =
        some (slots.map fun s => (s, some (startTimeD s))) := by
  intro slots
  induction slots with
  | nil => intro _; rfl
  | cons s rest ih =>
    intro h
    have hs := h s (List.mem_cons_self s rest)
    simp [annotateSlots, hs, ih (fun x hx => h x (List.mem_cons_of_mem s hx))]

/-- The `filter_map` pairing pass keeps every slot whose time is
present. -/
theorem filterMap_pair (slots : List ResySlot) (g : ResySlot → Nat) :
    ((slots.map (fun s => (s, some (g s)))).filterMap
        (fun p => p.2.map (fun t => (p.1, t)))) =
      slots.map (fun s => (s, g s)) := by
  induction slots with
  | nil => rfl
  | cons s rest ih => simp [List.filterMap_cons, ih]

/-- Projecting the pairing away restores the original list. -/
theorem map_fst_pair (l : List ResySlot) (g : ResySlot → Nat) :
    (l.map (fun s => (s, g s))).map Prod.fst = l := by
  induction l with
  | nil => rfl
  | cons s t ih =>
    simp only [List.map_cons]
    rw [ih]

/-- C6: with a parseable preferred time and well-formed slot start
strings, the ranking returns a permutation of the input, ascending in the
minute-distance key, with every key class (in particular every tie group)
kept in original gateway order; with no preferred time the gateway order
is preserved unchanged; and on start times 18:00, 18:30, 19:15 with
preferred time 19:00 the order is [19:15, 18:30, 18:00]. -/
theorem sort_slots_ranking_spec :
    (∀ (slots : List ResySlot) (target : String) (tt : Nat),
        parseHHMM target = some tt →
        (∀ s ∈ slots, slotStartTime s = some (some (startTimeD s))) →
        ∃ r, sort_slots_by_closest_time slots target = some r ∧
          r.Perm slots ∧
          r.Pairwise (fun a b => slotKey tt a ≤ slotKey tt b) ∧
          ∀ k, r.filter (fun s => slotKey tt s == k) =
            slots.filter (fun s => slotKey tt s == k)) ∧
    (∀ slots : List ResySlot, rankSlots slots none = some slots) ∧
    sort_slots_by_closest_time [exSlot1800, exSlot1830, exSlot1915] "1900" =
      some [exSlot1915, exSlot1830, exSlot1800] := by
  refine ⟨?_, fun slots => rfl, by rfl⟩
  intro slots target tt hparse h
  have hann := annotateSlots_eq_map slots h
  have hPfst : (slots.map (fun s => (s, startTimeD s))).map Prod.fst = slots :=
    map_fst_pair slots startTimeD
  refine ⟨((slots.map (fun s => (s, startTimeD s))).insertionSort
      (fun a b => distKey tt a.2 ≤ distKey tt b.2)).map Prod.fst, ?_, ?_, ?_, ?_⟩
  · unfold sort_slots_by_closest_time
    rw [hparse, hann]
    simp only [Option.map_some', Option.some.injEq]
    rw [filterMap_pair]
  · have h1 := (List.perm_insertionSort
        (fun (a b : ResySlot × Nat) => distKey tt a.2 ≤ distKey tt b.2)
        (slots.map (fun s => (s, startTimeD s)))).map Prod.fst
    rw [hPfst] at h1
    exact h1
  · rw [List.pairwise_map]
    have hsorted : ((slots.map (fun s => (s, startTimeD s))).insertionSort
        (fun a b => distKey tt a.2 ≤ distKey tt b.2)).Pairwise
          (fun a b => distKey tt a.2 ≤ distKey tt b.2) := by
      haveI t1 : IsTotal (ResySlot × Nat)
          (fun a b => distKey tt a.2 ≤ distKey tt b.2) :=
        ⟨fun a b => Nat.le_total _ _⟩
      haveI t2 : IsTrans (ResySlot × Nat)
          (fun a b => distKey tt a.2 ≤ distKey tt b.2) :=
        ⟨fun a b c hab hbc => Nat.le_trans hab hbc⟩
      exact List.sorted_insertionSort _ _
    refine hsorted.imp_of_mem ?_
    intro a b ha hb hab
    have ha' := (List.mem_insertionSort _).mp ha
    have hb' := (List.mem_insertionSort _).mp hb
    obtain ⟨sa, hsa, rfl⟩ := List.mem_map.mp ha'
    obtain ⟨sb, hsb, rfl⟩ := List.mem_map.mp hb'
    simpa [slotKey] using hab
  · intro k
    have hmemP : ∀ a ∈ slots.map (fun s => (s, startTimeD s)),
        a.2 = startTimeD a.1 := by
      intro a ha
      obtain ⟨sa, hsa, rfl⟩ := List.mem_map.mp ha
      rfl
    have hmemS : ∀ a ∈ (slots.map (fun s => (s, startTimeD s))).insertionSort
        (fun a b => distKey tt a.2 ≤ distKey tt b.2),
        a.2 = startTimeD a.1 :=
      fun a ha => hmemP a ((List.mem_insertionSort _).mp ha)
    have hconv : ∀ (l : List (ResySlot × Nat)),
        (∀ a ∈ l, a.2 = startTimeD a.1) →
        l.filter ((fun s => slotKey tt s == k) ∘ Prod.fst) =
          l.filter (fun a => distKey tt a.2 == k) := by
      intro l hl
      apply List.filter_congr
      intro a ha
      simp [Function.comp, slotKey, hl a ha]
    have hstab :
        (((slots.map (fun s => (s, startTimeD s))).insertionSort
            (fun a b => distKey tt a.2 ≤ distKey tt b.2)).filter
          (fun a => distKey tt a.2 == k)) =
        (slots.map (fun s => (s, startTimeD s))).filter
          (fun a => distKey tt a.2 == k) :=
      filter_insertionSort_key (fun a : ResySlot × Nat => distKey tt a.2) k _
    rw [List.filter_map, hconv _ hmemS, hstab, ← hconv _ hmemP,
      ← List.filter_map, hPfst]

/-- C6 witness: the 18:00/18:30/19:15 example against preferred time
19:00 (minute 1140): permutation, ascending distances, classes in
gateway order. -/
theorem sort_slots_ranking_spec_witness :
    ∃ r, sort_slots_by_closest_time [exSlot1800, exSlot1830, exSlot1915] "1900" =
        some r ∧
      r.Perm [exSlot1800, exSlot1830, exSlot1915] ∧
      r.Pairwise (fun a b => slotKey 1140 a ≤ slotKey 1140 b) ∧
      ∀ k, r.filter (fun s => slotKey 1140 s == k) =
        [exSlot1800, exSlot1830, exSlot1915].filter
          (fun s => slotKey 1140 s == k) :=
  sort_slots_ranking_spec.1 [exSlot1800, exSlot1830, exSlot1915] "1900" 1140
    (by rfl) (by decide)
